import Mathlib

/-!
Shallow embedding of `salesforce_api/services/bulk.py`: the Bulk service,
the Job lifecycle (upload, polling `wait`, result retrieval), and the
CSV result-row parsing it performs via Python's `csv.reader`.

HTTP transport is modelled by an explicit environment (`Env`) describing
the remote side's responses, and every operation additionally returns the
trace of remote calls it issues, so that claims about which endpoints are
hit (and in which order) can be stated.
-/

/-- Modelled from the spec: `const.BULK_STATE_UPLOAD_COMPLETE` (module
`salesforce_api/const.py` is not in src). The state-patch value used by
`Job.upload`. -/
def BULK_STATE_UPLOAD_COMPLETE : String := "UploadComplete"

/-- Modelled from the spec: `const.BULK_STATES_DONE` (module
`salesforce_api/const.py` is not in src). The terminal-state set:
"Done" = any of \x7bJobComplete, Failed, Aborted\x7d. -/
def BULK_STATES_DONE : List String := ["JobComplete", "Failed", "Aborted"]

/-- Modelled from the spec: `const.BULK_STATES_FAIL` (module
`salesforce_api/const.py` is not in src). The failure-class terminal
states: "states indicating the job did not complete successfully". -/
def BULK_STATES_FAIL : List String := ["Failed", "Aborted"]

/-- Modelled from the spec: `config.POLL_SLEEP_SECONDS` (module
`salesforce_api/config.py` is not in src). The fixed configured poll
interval, in seconds, slept between status checks by `Job.wait`. -/
def POLL_SLEEP_SECONDS : Nat := 5

/-- Modelled from the spec: the Result Record model of
`salesforce_api/models/bulk.py` (not in src). `SuccessResultRecord`
carries the record id; `FailResultRecord` carries the record id and the
error description. -/
inductive ResultRecord where
  | success (id : String) : ResultRecord
  | fail (id : String) (message : String) : ResultRecord
deriving DecidableEq, Repr

/-- Exceptions surfaced by the embedded operations. `transport` stands for
any propagated HTTP-layer error; `bulkJobFailedError` embeds
`exceptions.BulkJobFailedError` carrying `info().get('errorMessage')`
(which is `None` when the key is absent, hence `Option`); `indexError`
is Python's out-of-bounds access in the result-row callbacks;
`notImplementedError` embeds `NotImplementedError`. -/
inductive PyErr where
  | transport (e : String) : PyErr
  | bulkJobFailedError (message : Option String) : PyErr
  | indexError : PyErr
  | notImplementedError : PyErr
deriving DecidableEq, Repr

/-- The JSON body of the job-creation POST built by `Bulk._create_job`.
Fields in source order: columnDelimiter, contentType, lineEnding,
object, operation, externalIdFieldName (JSON null = `none`). -/
structure CreateJobBody where
  columnDelimiter : String
  contentType : String
  lineEnding : String
  object : String
  operation : String
  externalIdFieldName : Option String
deriving DecidableEq, Repr

/-- An HTTP request issued by the Bulk service or a Job. URLs follow the
wire contract (`RestService` base path `jobs/ingest`). -/
inductive Request where
  | post (url : String) (body : CreateJobBody) : Request
  | put (url : String) (contentType : String) (data : String) : Request
  | patchState (url : String) (state : String) : Request
  | getReq (url : String) : Request
deriving DecidableEq, Repr

/-- The JSON job descriptor returned by GET on the job URL: `state` plus
the optional `errorMessage`. -/
structure JobInfo where
  state : String
  errorMessage : Option String
deriving DecidableEq, Repr

/-- A remote interaction recorded while `Job.wait` (and result fetching)
runs: a GET of the job descriptor together with the response observed, a
sleep of a number of seconds, or a GET of a results sub-resource. -/
inductive Call where
  | getJob (url : String) (response : JobInfo) : Call
  | sleep (seconds : Nat) : Call
  | getResults (url : String) : Call
deriving DecidableEq, Repr

/-- One uploaded record: a field-name-to-value mapping (Python dict),
embedded as an association list. -/
abbrev Entry := List (String × String)

/-- Outcome of the `PUT batches` transport call in `Job.upload`: success,
a `json.decoder.JSONDecodeError` while parsing the response body, or any
other transport error. -/
inductive PutOutcome where
  | ok : PutOutcome
  | jsonDecodeError : PutOutcome
  | transportError (e : String) : PutOutcome
deriving DecidableEq, Repr

/-- The remote side's behaviour, fixed for one scenario: the `id` field of
the job-creation response, the outcome of the batch PUT, the outcome of
the state PATCH (`none` = success), the job descriptor returned by the
n-th GET of the job URL, the CSV texts of the two result sub-resources,
and the CSV encoder (`utils.bulk.FilePreparer(entries).get_csv_string()`,
a collaborator not in src, kept parametric). -/
structure Env where
  createdJobId : String
  putOutcome : PutOutcome
  patchError : Option String
  infos : Nat → JobInfo
  failedCsv : String
  successfulCsv : String
  encode : List Entry → String

/-! ## CSV parsing (Python `csv.reader`, default dialect, LF line ends)

`Job._get_results` reads the result CSV with `csv.reader(io.StringIO(result))`.
We embed the default-dialect behaviour on LF-terminated text: fields are
comma-separated, a `"` opening an empty field starts a quoted field (with
`""` as an escaped quote), a blank line yields the empty row `[]`, and a
final line not ended by a newline still yields its row. -/

/-- Character-level CSV scanner. Arguments: remaining input, inside-quotes
flag, current field, fields of the current row so far, completed rows. -/
def csvAux : List Char → Bool → String → List String → List (List String) → List (List String)
  | [], _, field, rec, rows =>
      if field.isEmpty && rec.isEmpty then rows
      else rows ++ [rec ++ [field]]
  | '"' :: '"' :: rest, true, field, rec, rows =>
      csvAux rest true (field.push '"') rec rows
  | '"' :: rest, true, field, rec, rows =>
      csvAux rest false field rec rows
  | '"' :: rest, false, field, rec, rows =>
      if field.isEmpty then csvAux rest true field rec rows
      else csvAux rest false (field.push '"') rec rows
  | ',' :: rest, false, field, rec, rows =>
      csvAux rest false "" (rec ++ [field]) rows
  | '\n' :: rest, false, field, rec, rows =>
      if field.isEmpty && rec.isEmpty then csvAux rest false "" [] (rows ++ [[]])
      else csvAux rest false "" [] (rows ++ [rec ++ [field]])
  | c :: rest, inQ, field, rec, rows =>
      csvAux rest inQ (field.push c) rec rows

/-- All rows of a CSV text, as `csv.reader` yields them. -/
def csvRows (s : String) : List (List String) :=
  csvAux s.data false "" [] []

/-! ## Job -/

/-- A `Job` handle: `Job(connection, job_id)` keeps the job id; its
service base URL is `'jobs/ingest/' + job_id`. -/
structure Job where
  job_id : String
deriving DecidableEq, Repr

/-- The job's base URL, `'jobs/ingest/' + job_id`. -/
def Job.url (j : Job) : String := "jobs/ingest/" ++ j.job_id

/-- Modelled from the spec: `RestService._format_url` of
`salesforce_api/services/base.py` (not in src); per the wire contract,
sub-resources live under the job URL. -/
def Job.formatUrl (j : Job) (uri : String) : String := j.url ++ "/" ++ uri

/-- `Job._prepare_data`: encode the entries via the CSV encoder
(`bulk_utils.FilePreparer(entries).get_csv_string()`, kept parametric in
`Env.encode`). -/
def Job.prepare_data (env : Env) (entries : List Entry) : String :=
  env.encode entries

/-- `Job.upload`: PUT the encoded batch to the `batches` sub-resource with
`Content-Type: text/csv`, swallowing only a `json.decoder.JSONDecodeError`
raised by that PUT, then PATCH the state to
`const.BULK_STATE_UPLOAD_COMPLETE` and return `True`. Any other error
propagates. Returns the request trace and the outcome. -/
def Job.upload (env : Env) (j : Job) (entries : List Entry) :
    List Request × Except PyErr Bool :=
  let putReq := Request.put (j.formatUrl "batches") "text/csv"
    (Job.prepare_data env entries)
  match env.putOutcome with
  | PutOutcome.transportError e => ([putReq], Except.error (PyErr.transport e))
  | _ =>
    match env.patchError with
    | some e =>
        ([putReq, Request.patchState j.url BULK_STATE_UPLOAD_COMPLETE],
         Except.error (PyErr.transport e))
    | none =>
        ([putReq, Request.patchState j.url BULK_STATE_UPLOAD_COMPLETE],
         Except.ok true)

/-- `Job.get_state` observed at the n-th GET of the job descriptor:
`info().get('state')`. -/
def Job.get_state (env : Env) (n : Nat) : String := (env.infos n).state

/-- `Job.is_done` observed at the n-th GET:
`get_state() in const.BULK_STATES_DONE`. -/
def Job.is_done (env : Env) (n : Nat) : Bool :=
  BULK_STATES_DONE.contains (Job.get_state env n)

/-- The success-row callback `lambda x: models.SuccessResultRecord(x[0])`;
`none` embeds the `IndexError` of `x[0]` on an empty row. -/
def successCallback (x : List String) : Option ResultRecord :=
  match x with
  | id :: _ => some (ResultRecord.success id)
  | [] => none

/-- The failure-row callback
`lambda x: models.FailResultRecord(x[0], x[1])`; `none` embeds the
`IndexError` on a row with fewer than two columns. -/
def failCallback (x : List String) : Option ResultRecord :=
  match x with
  | id :: message :: _ => some (ResultRecord.fail id message)
  | _ => none

/-- The list comprehension `[callback(x) for x in reader]`: map each row
through the callback, stopping with `none` at the first row on which the
callback raises. -/
def mapRows (callback : List String → Option ResultRecord) :
    List (List String) → Option (List ResultRecord)
  | [] => some []
  | x :: xs =>
      match callback x with
      | none => none
      | some y =>
          match mapRows callback xs with
          | none => none
          | some ys => some (y :: ys)

/-- `Job._get_results`: GET the sub-resource, read the body as CSV, skip
the first row (`next(reader, None)`), and map each remaining row through
the callback. `none` embeds an `IndexError` from the callback. -/
def Job.get_results (env : Env) (j : Job) (uri : String) (csvText : String)
    (callback : List String → Option ResultRecord) :
    Call × Option (List ResultRecord) :=
  (Call.getResults (j.formatUrl uri), mapRows callback ((csvRows csvText).tail))

/-- `Job.get_successful_results`. -/
def Job.get_successful_results (env : Env) (j : Job) :
    Call × Option (List ResultRecord) :=
  Job.get_results env j "successfulResults" env.successfulCsv successCallback

/-- `Job.get_failed_results`. -/
def Job.get_failed_results (env : Env) (j : Job) :
    Call × Option (List ResultRecord) :=
  Job.get_results env j "failedResults" env.failedCsv failCallback

/-- `Job.get_unprocessed_records`: `raise NotImplementedError`, before any
remote call. -/
def Job.get_unprocessed_records (j : Job) :
    List Call × Except PyErr (List ResultRecord) :=
  ([], Except.error PyErr.notImplementedError)

/-- The poll loop of `Job.wait`:
`while not self.is_done(): time.sleep(config.POLL_SLEEP_SECONDS)`.
Each iteration GETs the job descriptor once (index `n`); a non-terminal
state is followed by a sleep of the configured interval. Returns the
trace and the index of the GET that observed a terminal state; `none`
embeds non-termination within `fuel` checks. -/
def Job.waitLoop (env : Env) (j : Job) : Nat → Nat → Option (List Call × Nat)
  | 0, _ => none
  | fuel + 1, n =>
      let check := Call.getJob j.url (env.infos n)
      if Job.is_done env n then some ([check], n)
      else
        match Job.waitLoop env j fuel (n + 1) with
        | none => none
        | some (tr, m) =>
            some (check :: Call.sleep POLL_SLEEP_SECONDS :: tr, m)

/-- `Job.wait`: poll until `is_done()`; then re-read the state, and if it
is in `const.BULK_STATES_FAIL` raise
`BulkJobFailedError(self.info().get('errorMessage'))` (one more GET);
otherwise return `get_failed_results() + get_successful_results()`,
fetching the failed set first. `none` embeds a wait that never observes a
terminal state within `fuel` checks. -/
def Job.wait (env : Env) (j : Job) (fuel : Nat) :
    Option (List Call × Except PyErr (List ResultRecord)) :=
  match Job.waitLoop env j fuel 0 with
  | none => none
  | some (loopTr, m) =>
      if BULK_STATES_FAIL.contains (Job.get_state env (m + 1)) then
        some (loopTr ++ [Call.getJob j.url (env.infos (m + 1)),
                         Call.getJob j.url (env.infos (m + 2))],
              Except.error (PyErr.bulkJobFailedError
                (env.infos (m + 2)).errorMessage))
      else
        match (Job.get_failed_results env j).2 with
        | none =>
            some (loopTr ++ [Call.getJob j.url (env.infos (m + 1)),
                             (Job.get_failed_results env j).1],
                  Except.error PyErr.indexError)
        | some failed =>
            match (Job.get_successful_results env j).2 with
            | none =>
                some (loopTr ++ [Call.getJob j.url (env.infos (m + 1)),
                                 (Job.get_failed_results env j).1,
                                 (Job.get_successful_results env j).1],
                      Except.error PyErr.indexError)
            | some successful =>
                some (loopTr ++ [Call.getJob j.url (env.infos (m + 1)),
                                 (Job.get_failed_results env j).1,
                                 (Job.get_successful_results env j).1],
                      Except.ok (failed ++ successful))

/-! ## Bulk service -/

/-- `Bulk._create_job`: POST to `jobs/ingest` the JSON body with the fixed
COMMA/CSV/LF wire values plus object, operation and externalIdFieldName;
the returned `Job` is built from the response's `id` field. -/
def Bulk.create_job (env : Env) (operation object_name : String)
    (external_id_field_name : Option String) : Request × Job :=
  (Request.post "jobs/ingest"
    ⟨"COMMA", "CSV", "LF", object_name, operation, external_id_field_name⟩,
   Job.mk env.createdJobId)

/-- `Bulk._execute_operation`: create the job, upload the entries, then
`wait()` and return its value. The first component is the request trace
up to the upload; the second is `none` when `wait` never observes a
terminal state, otherwise `wait`'s trace and value (an upload error stops
before `wait`, with an empty wait trace). -/
def Bulk.execute_operation (env : Env) (fuel : Nat)
    (operation object_name : String) (entries : List Entry)
    (external_id_field_name : Option String) :
    List Request × Option (List Call × Except PyErr (List ResultRecord)) :=
  let created := Bulk.create_job env operation object_name external_id_field_name
  let uploaded := Job.upload env created.2 entries
  (created.1 :: uploaded.1,
   match uploaded.2 with
   | Except.error e => some ([], Except.error e)
   | Except.ok _ => Job.wait env created.2 fuel)

/-- `Bulk.insert`. -/
def Bulk.insert (env : Env) (fuel : Nat) (object_name : String)
    (entries : List Entry) :
    List Request × Option (List Call × Except PyErr (List ResultRecord)) :=
  Bulk.execute_operation env fuel "insert" object_name entries none

/-- `Bulk.update`. -/
def Bulk.update (env : Env) (fuel : Nat) (object_name : String)
    (entries : List Entry) :
    List Request × Option (List Call × Except PyErr (List ResultRecord)) :=
  Bulk.execute_operation env fuel "update" object_name entries none

/-- `Bulk.upsert` with an explicit `external_id_field_name` argument. -/
def Bulk.upsert (env : Env) (fuel : Nat) (object_name : String)
    (entries : List Entry) (external_id_field_name : String) :
    List Request × Option (List Call × Except PyErr (List ResultRecord)) :=
  Bulk.execute_operation env fuel "upsert" object_name entries
    (some external_id_field_name)

/-- `Bulk.upsert` called without the keyword argument: the Python default
is `external_id_field_name = 'Id'`. -/
def Bulk.upsertDefault (env : Env) (fuel : Nat) (object_name : String)
    (entries : List Entry) :
    List Request × Option (List Call × Except PyErr (List ResultRecord)) :=
  Bulk.upsert env fuel object_name entries "Id"

/-- `Bulk.select`: `raise NotImplementedError`, for any keyword arguments,
before any remote call. -/
def Bulk.select (kwargs : List (String × String)) :
    List Request × Except PyErr Unit :=
  ([], Except.error PyErr.notImplementedError)

/-- `Bulk.delete`: rewrite each id into the single-field record
`{'Id': id}` and run the `delete` operation on those entries. -/
def Bulk.delete (env : Env) (fuel : Nat) (object_name : String)
    (ids : List String) :
    List Request × Option (List Call × Except PyErr (List ResultRecord)) :=
  Bulk.execute_operation env fuel "delete" object_name
    (ids.map (fun id => [("Id", id)])) none

/-! ## Helper definitions and lemmas about the poll loop -/

/-- Recognises a status check (a GET of the job descriptor) in a trace. -/
def Call.isStatusCheck : Call → Bool
  | Call.getJob _ _ => true
  | _ => false

/-- The trace shape of the poll loop: `k + 1` status checks starting at
GET index `n`, with a sleep of the configured interval between any two
successive checks. -/
def pollCalls (env : Env) (j : Job) : Nat → Nat → List Call
  | n, 0 => [Call.getJob j.url (env.infos n)]
  | n, k + 1 =>
      Call.getJob j.url (env.infos n) :: Call.sleep POLL_SLEEP_SECONDS ::
        pollCalls env j (n + 1) k

/-- A successful poll loop observed a terminal state exactly at its last
check, only non-terminal states before, and its trace is the alternating
check/sleep shape `pollCalls`. -/
theorem waitLoop_some (env : Env) (j : Job) :
    ∀ (fuel n : Nat) (tr : List Call) (m : Nat),
    Job.waitLoop env j fuel n = some (tr, m) →
    n ≤ m ∧ Job.is_done env m = true ∧
    (∀ k, n ≤ k → k < m → Job.is_done env k = false) ∧
    tr = pollCalls env j n (m - n) := by
  intro fuel
  induction fuel with
  | zero => intro n tr m h; simp [Job.waitLoop] at h
  | succ f ih =>
    intro n tr m h
    rw [Job.waitLoop] at h
    by_cases hd : Job.is_done env n
    · simp [hd] at h
      obtain ⟨htr, hm⟩ := h
      subst hm
      refine ⟨le_rfl, hd, by omega, ?_⟩
      simp [← htr, pollCalls]
    · simp [hd] at h
      cases hrec : Job.waitLoop env j f (n + 1) with
      | none => rw [hrec] at h; simp at h
      | some p =>
        obtain ⟨tr2, m2⟩ := p
        rw [hrec] at h
        simp at h
        obtain ⟨htr, hm⟩ := h
        obtain ⟨h1, h2, h3, h4⟩ := ih (n + 1) tr2 m2 hrec
        subst hm
        refine ⟨by omega, h2, ?_, ?_⟩
        · intro k hk1 hk2
          rcases Nat.eq_or_lt_of_le hk1 with heq | hlt
          · subst heq; simpa using hd
          · exact h3 k hlt hk2
        · have hsub : m2 - n = (m2 - (n + 1)) + 1 := by omega
          rw [← htr, hsub, pollCalls, h4]

/-- Converse of `waitLoop_some`: if the first terminal observation is at
check `m` and there is enough fuel, the poll loop returns exactly there
with the `pollCalls` trace. -/
theorem waitLoop_eq (env : Env) (j : Job) :
    ∀ (fuel n m : Nat), n ≤ m → m < n + fuel →
    Job.is_done env m = true →
    (∀ k, n ≤ k → k < m → Job.is_done env k = false) →
    Job.waitLoop env j fuel n = some (pollCalls env j n (m - n), m) := by
  intro fuel
  induction fuel with
  | zero => intro n m h1 h2 _ _; omega
  | succ f ih =>
    intro n m h1 h2 hdone hnot
    rw [Job.waitLoop]
    by_cases hnm : n = m
    · subst hnm
      simp [hdone, pollCalls]
    · have hlt : n < m := lt_of_le_of_ne h1 hnm
      have hfalse : Job.is_done env n = false := hnot n le_rfl hlt
      simp only [hfalse, Bool.false_eq_true, if_false]
      rw [ih (n + 1) m hlt (by omega) hdone
        (fun k hk1 hk2 => hnot k (by omega) hk2)]
      have hsub : m - n = (m - (n + 1)) + 1 := by omega
      rw [hsub, pollCalls]

/-- Every record produced by the failure-row callback is a `fail`. -/
theorem failCallback_some (x : List String) (r : ResultRecord)
    (h : failCallback x = some r) :
    ∃ i msg, r = ResultRecord.fail i msg := by
  match x with
  | [] => simp [failCallback] at h
  | [a] => simp [failCallback] at h
  | a :: b :: rest =>
    simp [failCallback] at h
    exact ⟨a, b, h.symm⟩

/-- Every record produced by the success-row callback is a `success`. -/
theorem successCallback_some (x : List String) (r : ResultRecord)
    (h : successCallback x = some r) :
    ∃ i, r = ResultRecord.success i := by
  match x with
  | [] => simp [successCallback] at h
  | a :: rest =>
    simp [successCallback] at h
    exact ⟨a, h.symm⟩

/-- Rows mapped through a callback only yield records the callback can
produce. -/
theorem mapRows_mem (cb : List String → Option ResultRecord) :
    ∀ (rows : List (List String)) (l : List ResultRecord),
    mapRows cb rows = some l →
    ∀ r ∈ l, ∃ x, cb x = some r := by
  intro rows
  induction rows with
  | nil =>
    intro l h r hr
    simp [mapRows] at h
    subst h
    simp at hr
  | cons x xs ih =>
    intro l h r hr
    rw [mapRows] at h
    cases hx : cb x with
    | none => rw [hx] at h; simp at h
    | some y =>
      rw [hx] at h
      cases hxs : mapRows cb xs with
      | none => rw [hxs] at h; simp at h
      | some ys =>
        rw [hxs] at h
        simp at h
        subst h
        rcases List.mem_cons.mp hr with h1 | h2
        · exact ⟨x, by rw [hx, h1]⟩
        · exact ih ys hxs r h2

/-! ## Claim theorems -/

/-- C3: `wait()` never returns normally while `is_done()` is false. For
every remote observation sequence, whenever `wait` returns (with any
outcome) its trace starts with a poll phase that observed only
non-terminal states before finally observing a state in the
terminal-state set `BULK_STATES_DONE` = \x7bJobComplete, Failed,
Aborted\x7d, with a sleep of the configured interval
`POLL_SLEEP_SECONDS` between successive checks (`pollCalls`), and no
further sleeping afterwards. -/
theorem wait_returns_only_after_terminal_state (env : Env) (j : Job)
    (fuel : Nat) (tr : List Call) (res : Except PyErr (List ResultRecord))
    (h : Job.wait env j fuel = some (tr, res)) :
    ∃ m rest,
      Job.is_done env m = true ∧
      (∀ k, k < m → Job.is_done env k = false) ∧
      BULK_STATES_DONE.contains ((env.infos m).state) = true ∧
      tr = pollCalls env j 0 m ++ rest ∧
      (∀ c ∈ rest, ∀ s, c ≠ Call.sleep s) := by
  rw [Job.wait] at h
  cases hw : Job.waitLoop env j fuel 0 with
  | none => rw [hw] at h; simp at h
  | some p =>
    obtain ⟨loopTr, m⟩ := p
    rw [hw] at h
    dsimp only at h
    obtain ⟨_, h2, h3, h4⟩ := waitLoop_some env j fuel 0 loopTr m hw
    have h3' : ∀ k, k < m → Job.is_done env k = false :=
      fun k hk => h3 k (Nat.zero_le k) hk
    have hdone : BULK_STATES_DONE.contains ((env.infos m).state) = true := h2
    by_cases hfail : BULK_STATES_FAIL.contains (Job.get_state env (m + 1))
    · rw [if_pos hfail] at h
      simp only [Option.some.injEq, Prod.mk.injEq] at h
      obtain ⟨htr, _⟩ := h
      refine ⟨m, [Call.getJob j.url (env.infos (m + 1)),
                  Call.getJob j.url (env.infos (m + 2))],
        h2, h3', hdone, ?_, by simp⟩
      rw [← htr, h4, Nat.sub_zero]
    · rw [if_neg hfail] at h
      cases hf : (Job.get_failed_results env j).2 with
      | none =>
        rw [hf] at h
        simp only [Option.some.injEq, Prod.mk.injEq] at h
        obtain ⟨htr, _⟩ := h
        refine ⟨m, [Call.getJob j.url (env.infos (m + 1)),
                    (Job.get_failed_results env j).1],
          h2, h3', hdone, ?_, ?_⟩
        · rw [← htr, h4, Nat.sub_zero]
        · simp [Job.get_failed_results, Job.get_results]
      | some failed =>
        rw [hf] at h
        cases hs : (Job.get_successful_results env j).2 with
        | none =>
          rw [hs] at h
          simp only [Option.some.injEq, Prod.mk.injEq] at h
          obtain ⟨htr, _⟩ := h
          refine ⟨m, [Call.getJob j.url (env.infos (m + 1)),
                      (Job.get_failed_results env j).1,
                      (Job.get_successful_results env j).1],
            h2, h3', hdone, ?_, ?_⟩
          · rw [← htr, h4, Nat.sub_zero]
          · simp [Job.get_failed_results, Job.get_successful_results,
              Job.get_results]
        | some successful =>
          rw [hs] at h
          simp only [Option.some.injEq, Prod.mk.injEq] at h
          obtain ⟨htr, _⟩ := h
          refine ⟨m, [Call.getJob j.url (env.infos (m + 1)),
                      (Job.get_failed_results env j).1,
                      (Job.get_successful_results env j).1],
            h2, h3', hdone, ?_, ?_⟩
          · rw [← htr, h4, Nat.sub_zero]
          · simp [Job.get_failed_results, Job.get_successful_results,
              Job.get_results]

/-- C2: for a job whose terminal state is `Failed` with remote
`errorMessage` "X" (every status fetch observes that descriptor),
`wait()` raises `BulkJobFailedError` carrying "X", and its trace contains
no GET of a results sub-resource (neither `successfulResults` nor
`failedResults`). -/
theorem wait_failed_raises_and_skips_results (env : Env) (j : Job)
    (fuel : Nat) (X : String)
    (hX : ∀ n, env.infos n = ⟨"Failed", some X⟩)
    (hfuel : 1 ≤ fuel) :
    Job.wait env j fuel =
      some ([Call.getJob j.url ⟨"Failed", some X⟩,
             Call.getJob j.url ⟨"Failed", some X⟩,
             Call.getJob j.url ⟨"Failed", some X⟩],
            Except.error (PyErr.bulkJobFailedError (some X))) ∧
    ∀ c ∈ [Call.getJob j.url (⟨"Failed", some X⟩ : JobInfo),
           Call.getJob j.url ⟨"Failed", some X⟩,
           Call.getJob j.url ⟨"Failed", some X⟩],
      ∀ u, c ≠ Call.getResults u := by
  have hdone : Job.is_done env 0 = true := by
    simp [Job.is_done, Job.get_state, hX 0]
    decide
  have hwl : Job.waitLoop env j fuel 0 =
      some (pollCalls env j 0 (0 - 0), 0) :=
    waitLoop_eq env j fuel 0 0 le_rfl (by omega) hdone (by omega)
  constructor
  · rw [Job.wait, hwl]
    dsimp only
    have hfailst : BULK_STATES_FAIL.contains (Job.get_state env 1) = true := by
      simp [Job.get_state, hX 1]
      decide
    rw [if_pos hfailst]
    simp [pollCalls, hX 0, hX 1, hX 2]
  · simp

/-- C1: for a job whose observed status sequence is Open, then
UploadComplete, then the terminal state JobComplete (from the third
check on), and whose result CSVs parse, `wait()` issues at least two
status checks and returns exactly `get_failed_results()` followed by
`get_successful_results()`: every record of the first part is a `fail`
record and every record of the second a `success` record. -/
theorem wait_success_returns_failed_then_successful (env : Env) (j : Job)
    (fuel : Nat) (failed successful : List ResultRecord)
    (h0 : (env.infos 0).state = "Open")
    (h1 : (env.infos 1).state = "UploadComplete")
    (h2 : ∀ n, 2 ≤ n → (env.infos n).state = "JobComplete")
    (hfuel : 3 ≤ fuel)
    (hf : (Job.get_failed_results env j).2 = some failed)
    (hs : (Job.get_successful_results env j).2 = some successful) :
    ∃ tr, Job.wait env j fuel = some (tr, Except.ok (failed ++ successful)) ∧
      2 ≤ (tr.filter Call.isStatusCheck).length ∧
      (∀ r ∈ failed, ∃ i msg, r = ResultRecord.fail i msg) ∧
      (∀ r ∈ successful, ∃ i, r = ResultRecord.success i) := by
  have hd0 : Job.is_done env 0 = false := by
    simp [Job.is_done, Job.get_state, h0]
    decide
  have hd1 : Job.is_done env 1 = false := by
    simp [Job.is_done, Job.get_state, h1]
    decide
  have hd2 : Job.is_done env 2 = true := by
    simp [Job.is_done, Job.get_state, h2 2 le_rfl]
    decide
  have hwl : Job.waitLoop env j fuel 0 =
      some (pollCalls env j 0 (2 - 0), 2) := by
    refine waitLoop_eq env j fuel 0 2 (by omega) (by omega) hd2 ?_
    intro k hk1 hk2
    interval_cases k
    · exact hd0
    · exact hd1
  refine ⟨pollCalls env j 0 2 ++
    [Call.getJob j.url (env.infos 3),
     (Job.get_failed_results env j).1,
     (Job.get_successful_results env j).1], ?_, ?_, ?_, ?_⟩
  · rw [Job.wait, hwl]
    dsimp only
    have hnotfail : BULK_STATES_FAIL.contains (Job.get_state env 3) = false := by
      simp [Job.get_state, h2 3 (by omega)]
      decide
    rw [if_neg (by rw [hnotfail]; simp)]
    rw [hf, hs]
  · simp [pollCalls, Call.isStatusCheck, List.filter,
      Job.get_failed_results, Job.get_successful_results, Job.get_results]
  · intro r hr
    have hmf : mapRows failCallback ((csvRows env.failedCsv).tail) =
        some failed := hf
    obtain ⟨x, hx⟩ := mapRows_mem failCallback _ failed hmf r hr
    exact failCallback_some x r hx
  · intro r hr
    have hms : mapRows successCallback ((csvRows env.successfulCsv).tail) =
        some successful := hs
    obtain ⟨x, hx⟩ := mapRows_mem successCallback _ successful hms r hr
    exact successCallback_some x r hx

/-- C4: `insert`, `update`, `upsert` and `delete` all delegate to
`_execute_operation`, which performs create-job (POST), then
`upload(entries)` (PUT of the batch followed by the state PATCH), then
`wait()`, and returns `wait()`'s value — the completed, polled outcome —
unchanged. -/
theorem operations_run_create_upload_wait (env : Env) (fuel : Nat)
    (operation object_name x : String) (entries : List Entry)
    (ids : List String) (ext : Option String)
    (hput : ∀ s, env.putOutcome ≠ PutOutcome.transportError s)
    (hpatch : env.patchError = none) :
    Bulk.insert env fuel object_name entries =
      Bulk.execute_operation env fuel "insert" object_name entries none ∧
    Bulk.update env fuel object_name entries =
      Bulk.execute_operation env fuel "update" object_name entries none ∧
    Bulk.upsert env fuel object_name entries x =
      Bulk.execute_operation env fuel "upsert" object_name entries (some x) ∧
    Bulk.delete env fuel object_name ids =
      Bulk.execute_operation env fuel "delete" object_name
        (ids.map (fun id => [("Id", id)])) none ∧
    Bulk.execute_operation env fuel operation object_name entries ext =
      ([Request.post "jobs/ingest"
          ⟨"COMMA", "CSV", "LF", object_name, operation, ext⟩,
        Request.put ((Job.mk env.createdJobId).formatUrl "batches")
          "text/csv" (env.encode entries),
        Request.patchState (Job.mk env.createdJobId).url "UploadComplete"],
       Job.wait env (Job.mk env.createdJobId) fuel) := by
  refine ⟨rfl, rfl, rfl, rfl, ?_⟩
  cases hp : env.putOutcome with
  | ok =>
    simp [Bulk.execute_operation, Bulk.create_job, Job.upload,
      Job.prepare_data, hp, hpatch, BULK_STATE_UPLOAD_COMPLETE]
  | jsonDecodeError =>
    simp [Bulk.execute_operation, Bulk.create_job, Job.upload,
      Job.prepare_data, hp, hpatch, BULK_STATE_UPLOAD_COMPLETE]
  | transportError s => exact absurd hp (hput s)

/-- C5: `upload(entries)` swallows exactly the response-body JSON parse
error of the batch PUT — it then still issues the state PATCH to
`"UploadComplete"` and returns `True` (as on a clean PUT) — while any
other transport failure of the PUT propagates to the caller before the
PATCH is issued. -/
theorem upload_swallows_only_json_decode_error (env : Env) (j : Job)
    (entries : List Entry) :
    (env.putOutcome = PutOutcome.jsonDecodeError → env.patchError = none →
      Job.upload env j entries =
        ([Request.put (j.formatUrl "batches") "text/csv"
            (env.encode entries),
          Request.patchState j.url "UploadComplete"],
         Except.ok true)) ∧
    (env.putOutcome = PutOutcome.ok → env.patchError = none →
      Job.upload env j entries =
        ([Request.put (j.formatUrl "batches") "text/csv"
            (env.encode entries),
          Request.patchState j.url "UploadComplete"],
         Except.ok true)) ∧
    (∀ s, env.putOutcome = PutOutcome.transportError s →
      Job.upload env j entries =
        ([Request.put (j.formatUrl "batches") "text/csv"
            (env.encode entries)],
         Except.error (PyErr.transport s))) := by
  refine ⟨?_, ?_, ?_⟩
  · intro hp hpatch
    simp [Job.upload, Job.prepare_data, hp, hpatch, BULK_STATE_UPLOAD_COMPLETE]
  · intro hp hpatch
    simp [Job.upload, Job.prepare_data, hp, hpatch, BULK_STATE_UPLOAD_COMPLETE]
  · intro s hp
    simp [Job.upload, Job.prepare_data, hp]

/-- C6: `Bulk.delete(objectName, ids)` rewrites each id into the
single-field record \x7bId: id\x7d and runs the `delete` operation on those
records; the batch PUT it performs carries exactly the encoding of the
rewritten records — in particular `delete(["a","b"])` uploads the
encoding of `[\x7b"Id":"a"\x7d,\x7b"Id":"b"\x7d]`. -/
theorem delete_rewrites_ids_to_records (env : Env) (fuel : Nat)
    (object_name : String) (ids : List String) :
    Bulk.delete env fuel object_name ids =
      Bulk.execute_operation env fuel "delete" object_name
        (ids.map (fun id => [("Id", id)])) none ∧
    (Bulk.delete env fuel object_name ids).1[1]? =
      some (Request.put ((Job.mk env.createdJobId).formatUrl "batches")
        "text/csv" (env.encode (ids.map (fun id => [("Id", id)])))) ∧
    (Bulk.delete env fuel object_name ["a", "b"]).1[1]? =
      some (Request.put ((Job.mk env.createdJobId).formatUrl "batches")
        "text/csv" (env.encode [[("Id", "a")], [("Id", "b")]])) := by
  refine ⟨rfl, ?_, ?_⟩
  · cases hp : env.putOutcome with
    | ok =>
      cases hpe : env.patchError with
      | none => simp [Bulk.delete, Bulk.execute_operation, Bulk.create_job,
          Job.upload, Job.prepare_data, hp, hpe]
      | some e => simp [Bulk.delete, Bulk.execute_operation, Bulk.create_job,
          Job.upload, Job.prepare_data, hp, hpe]
    | jsonDecodeError =>
      cases hpe : env.patchError with
      | none => simp [Bulk.delete, Bulk.execute_operation, Bulk.create_job,
          Job.upload, Job.prepare_data, hp, hpe]
      | some e => simp [Bulk.delete, Bulk.execute_operation, Bulk.create_job,
          Job.upload, Job.prepare_data, hp, hpe]
    | transportError s =>
      simp [Bulk.delete, Bulk.execute_operation, Bulk.create_job,
        Job.upload, Job.prepare_data, hp]
  · cases hp : env.putOutcome with
    | ok =>
      cases hpe : env.patchError with
      | none => simp [Bulk.delete, Bulk.execute_operation, Bulk.create_job,
          Job.upload, Job.prepare_data, hp, hpe]
      | some e => simp [Bulk.delete, Bulk.execute_operation, Bulk.create_job,
          Job.upload, Job.prepare_data, hp, hpe]
    | jsonDecodeError =>
      cases hpe : env.patchError with
      | none => simp [Bulk.delete, Bulk.execute_operation, Bulk.create_job,
          Job.upload, Job.prepare_data, hp, hpe]
      | some e => simp [Bulk.delete, Bulk.execute_operation, Bulk.create_job,
          Job.upload, Job.prepare_data, hp, hpe]
    | transportError s =>
      simp [Bulk.delete, Bulk.execute_operation, Bulk.create_job,
        Job.upload, Job.prepare_data, hp]

/-- C7: every job-creation request is a POST to `jobs/ingest` whose body
fixes columnDelimiter COMMA, contentType CSV, lineEnding LF and carries
the object name, the operation kind and externalIdFieldName — `none` for
insert, update and delete, the given field for upsert, defaulting to
`"Id"` — and the resulting `Job` is built from the `id` field of the
response. -/
theorem create_job_request_shape (env : Env) (fuel : Nat)
    (operation object_name x : String) (ext : Option String)
    (entries : List Entry) (ids : List String) :
    Bulk.create_job env operation object_name ext =
      (Request.post "jobs/ingest"
        ⟨"COMMA", "CSV", "LF", object_name, operation, ext⟩,
       Job.mk env.createdJobId) ∧
    (Bulk.insert env fuel object_name entries).1.head? =
      some (Request.post "jobs/ingest"
        ⟨"COMMA", "CSV", "LF", object_name, "insert", none⟩) ∧
    (Bulk.update env fuel object_name entries).1.head? =
      some (Request.post "jobs/ingest"
        ⟨"COMMA", "CSV", "LF", object_name, "update", none⟩) ∧
    (Bulk.delete env fuel object_name ids).1.head? =
      some (Request.post "jobs/ingest"
        ⟨"COMMA", "CSV", "LF", object_name, "delete", none⟩) ∧
    (Bulk.upsert env fuel object_name entries x).1.head? =
      some (Request.post "jobs/ingest"
        ⟨"COMMA", "CSV", "LF", object_name, "upsert", some x⟩) ∧
    (Bulk.upsertDefault env fuel object_name entries).1.head? =
      some (Request.post "jobs/ingest"
        ⟨"COMMA", "CSV", "LF", object_name, "upsert", some "Id"⟩) :=
  ⟨rfl, rfl, rfl, rfl, rfl, rfl⟩

/-- C8: the result getters skip the header row of the fetched CSV and map
each remaining row to a record — the success callback takes column 0 as
id, the failure callback columns 0 and 1 as id and error message; on the
CSV `"sf__Id,sf__Error\n001,BAD\n"`, `get_failed_results()` yields
exactly one fail record with id `"001"` and message `"BAD"`. -/
theorem get_results_skip_header_and_map (env : Env) (j : Job)
    (hcsv : env.failedCsv = "sf__Id,sf__Error\n001,BAD\n") :
    Job.get_failed_results env j =
      (Call.getResults (j.formatUrl "failedResults"),
       some [ResultRecord.fail "001" "BAD"]) ∧
    (∀ (e2 : Env),
      Job.get_failed_results e2 j =
        (Call.getResults (j.formatUrl "failedResults"),
         mapRows failCallback ((csvRows e2.failedCsv).tail)) ∧
      Job.get_successful_results e2 j =
        (Call.getResults (j.formatUrl "successfulResults"),
         mapRows successCallback ((csvRows e2.successfulCsv).tail))) ∧
    (∀ (id msg : String) (rest : List String),
      failCallback (id :: msg :: rest) = some (ResultRecord.fail id msg)) ∧
    (∀ (id : String) (rest : List String),
      successCallback (id :: rest) = some (ResultRecord.success id)) := by
  refine ⟨?_, fun e2 => ⟨rfl, rfl⟩, fun id msg rest => rfl, fun id rest => rfl⟩
  simp only [Job.get_failed_results, Job.get_results, hcsv]
  rfl

/-- C9: `Bulk.select` and `Job.get_unprocessed_records` raise
`NotImplementedError` for every combination of arguments, with an empty
request trace (no network request is performed). -/
theorem select_and_unprocessed_always_raise
    (kwargs : List (String × String)) (j : Job) :
    Bulk.select kwargs =
      ([], Except.error PyErr.notImplementedError) ∧
    Job.get_unprocessed_records j =
      ([], Except.error PyErr.notImplementedError) :=
  ⟨rfl, rfl⟩

/-- An environment whose failed-results CSV has a one-column non-header
row and whose successful-results CSV contains a blank line. -/
def envShortRows : Env :=
  ⟨"J1", PutOutcome.ok, none, fun _ => ⟨"JobComplete", none⟩,
   "sf__Id,sf__Error\n001\n", "sf__Id\n\n001\n", fun _ => ""⟩

/-- C10: the result-row mapping is partial: the failure callback raises
(`none`) on any row with fewer than two columns and the success callback
on any row with fewer than one, a single such non-header row makes the
whole result call fail instead of returning a record list, and concretely
`get_failed_results` dies on the one-column row of
`"sf__Id,sf__Error\n001\n"` and `get_successful_results` on the blank
line of `"sf__Id\n\n001\n"`. -/
theorem short_result_rows_crash :
    (Job.get_failed_results envShortRows (Job.mk "J1")).2 = none ∧
    (Job.get_successful_results envShortRows (Job.mk "J1")).2 = none ∧
    (∀ (x : List String), x.length < 2 → failCallback x = none) ∧
    (∀ (x : List String), x.length < 1 → successCallback x = none) ∧
    (∀ (e : Env) (j : Job) (x : List String),
      x ∈ (csvRows e.failedCsv).tail → failCallback x = none →
      (Job.get_failed_results e j).2 = none) ∧
    (∀ (e : Env) (j : Job) (x : List String),
      x ∈ (csvRows e.successfulCsv).tail → successCallback x = none →
      (Job.get_successful_results e j).2 = none) := by
  have hnone : ∀ (cb : List String → Option ResultRecord)
      (rows : List (List String)) (x : List String),
      x ∈ rows → cb x = none → mapRows cb rows = none := by
    intro cb rows
    induction rows with
    | nil => intro x hx; simp at hx
    | cons y ys ih =>
      intro x hx hcb
      rcases List.mem_cons.mp hx with h1 | h2
      · subst h1
        rw [mapRows, hcb]
      · rw [mapRows]
        cases hy : cb y with
        | none => rfl
        | some v => rw [ih x h2 hcb]
  refine ⟨rfl, rfl, ?_, ?_, ?_, ?_⟩
  · intro x hx
    match x with
    | [] => rfl
    | [a] => rfl
    | a :: b :: rest => exact absurd hx (by simp)
  · intro x hx
    match x with
    | [] => rfl
    | a :: rest => exact absurd hx (by simp)
  · intro e j x hx hcb
    exact hnone failCallback _ x hx hcb
  · intro e j x hx hcb
    exact hnone successCallback _ x hx hcb

/-! ## Concrete scenarios and witnesses -/

/-- A concrete success scenario: states Open, UploadComplete, then
JobComplete forever; one failed and one successful result row. -/
def envSeqW : Env :=
  ⟨"J1", PutOutcome.ok, none,
   fun n => if n = 0 then ⟨"Open", none⟩
            else if n = 1 then ⟨"UploadComplete", none⟩
            else ⟨"JobComplete", none⟩,
   "sf__Id,sf__Error\n001,BAD\n", "sf__Id\n002\n", fun _ => "CSVDATA"⟩

/-- A concrete failed scenario: every status fetch observes `Failed` with
`errorMessage` "X". -/
def envFailedW : Env :=
  ⟨"J1", PutOutcome.ok, none, fun _ => ⟨"Failed", some "X"⟩, "", "",
   fun _ => ""⟩

/-- A concrete upload scenario whose batch PUT response fails to parse as
JSON. -/
def envJsonErrW : Env :=
  ⟨"J1", PutOutcome.jsonDecodeError, none, fun _ => ⟨"Open", none⟩, "", "",
   fun _ => "CSVDATA"⟩

/-- Witness for C1 at the concrete success scenario. -/
theorem wait_success_returns_failed_then_successful_witness :
    ∃ tr, Job.wait envSeqW (Job.mk "J1") 3 =
        some (tr, Except.ok ([ResultRecord.fail "001" "BAD"] ++
          [ResultRecord.success "002"])) ∧
      2 ≤ (tr.filter Call.isStatusCheck).length ∧
      (∀ r ∈ [ResultRecord.fail "001" "BAD"],
        ∃ i msg, r = ResultRecord.fail i msg) ∧
      (∀ r ∈ [ResultRecord.success "002"],
        ∃ i, r = ResultRecord.success i) :=
  wait_success_returns_failed_then_successful envSeqW (Job.mk "J1") 3
    [ResultRecord.fail "001" "BAD"] [ResultRecord.success "002"]
    rfl rfl
    (by
      intro n hn
      have h0 : n ≠ 0 := by omega
      have h1 : n ≠ 1 := by omega
      simp [envSeqW, h0, h1])
    le_rfl rfl rfl

/-- Witness for C2 at the concrete failed scenario. -/
theorem wait_failed_raises_and_skips_results_witness :
    Job.wait envFailedW (Job.mk "J1") 1 =
      some ([Call.getJob (Job.mk "J1").url ⟨"Failed", some "X"⟩,
             Call.getJob (Job.mk "J1").url ⟨"Failed", some "X"⟩,
             Call.getJob (Job.mk "J1").url ⟨"Failed", some "X"⟩],
            Except.error (PyErr.bulkJobFailedError (some "X"))) ∧
    ∀ c ∈ [Call.getJob (Job.mk "J1").url (⟨"Failed", some "X"⟩ : JobInfo),
           Call.getJob (Job.mk "J1").url ⟨"Failed", some "X"⟩,
           Call.getJob (Job.mk "J1").url ⟨"Failed", some "X"⟩],
      ∀ u, c ≠ Call.getResults u :=
  wait_failed_raises_and_skips_results envFailedW (Job.mk "J1") 1 "X"
    (fun n => rfl) le_rfl

/-- Witness for C3 at the concrete failed scenario. -/
theorem wait_returns_only_after_terminal_state_witness :
    ∃ m rest,
      Job.is_done envFailedW m = true ∧
      (∀ k, k < m → Job.is_done envFailedW k = false) ∧
      BULK_STATES_DONE.contains ((envFailedW.infos m).state) = true ∧
      [Call.getJob (Job.mk "J1").url (⟨"Failed", some "X"⟩ : JobInfo),
       Call.getJob (Job.mk "J1").url ⟨"Failed", some "X"⟩,
       Call.getJob (Job.mk "J1").url ⟨"Failed", some "X"⟩] =
        pollCalls envFailedW (Job.mk "J1") 0 m ++ rest ∧
      (∀ c ∈ rest, ∀ s, c ≠ Call.sleep s) :=
  wait_returns_only_after_terminal_state envFailedW (Job.mk "J1") 1
    [Call.getJob (Job.mk "J1").url ⟨"Failed", some "X"⟩,
     Call.getJob (Job.mk "J1").url ⟨"Failed", some "X"⟩,
     Call.getJob (Job.mk "J1").url ⟨"Failed", some "X"⟩]
    (Except.error (PyErr.bulkJobFailedError (some "X"))) rfl

/-- Witness for C4 at the concrete success scenario. -/
theorem operations_run_create_upload_wait_witness :
    Bulk.execute_operation envSeqW 3 "insert" "Account" [] none =
      ([Request.post "jobs/ingest"
          ⟨"COMMA", "CSV", "LF", "Account", "insert", none⟩,
        Request.put ((Job.mk envSeqW.createdJobId).formatUrl "batches")
          "text/csv" (envSeqW.encode []),
        Request.patchState (Job.mk envSeqW.createdJobId).url
          "UploadComplete"],
       Job.wait envSeqW (Job.mk envSeqW.createdJobId) 3) :=
  (operations_run_create_upload_wait envSeqW 3 "insert" "Account" "Id" []
    [] none (fun s h => by simp [envSeqW] at h) rfl).2.2.2.2

/-- Witness for C5 at the concrete parse-error scenario. -/
theorem upload_swallows_only_json_decode_error_witness :
    Job.upload envJsonErrW (Job.mk "J1") [] =
      ([Request.put ((Job.mk "J1").formatUrl "batches") "text/csv"
          (envJsonErrW.encode []),
        Request.patchState (Job.mk "J1").url "UploadComplete"],
       Except.ok true) :=
  (upload_swallows_only_json_decode_error envJsonErrW (Job.mk "J1") []).1
    rfl rfl

/-- Witness for C8 at the concrete failed-results CSV. -/
theorem get_results_skip_header_and_map_witness :
    Job.get_failed_results envSeqW (Job.mk "J1") =
      (Call.getResults ((Job.mk "J1").formatUrl "failedResults"),
       some [ResultRecord.fail "001" "BAD"]) :=
  (get_results_skip_header_and_map envSeqW (Job.mk "J1") rfl).1

/-- Witness for C10 at the concrete one-column failure row. -/
theorem short_result_rows_crash_witness :
    (Job.get_failed_results envShortRows (Job.mk "J1")).2 = none :=
  short_result_rows_crash.2.2.2.2.1 envShortRows (Job.mk "J1") ["001"]
    (by decide) rfl
